import Mathlib

/-!
Verification of the Freedom-Score front-end (src/frontend/src/App.js).

The component is a single React function `App` holding seven pieces of
state (user, calendarData, timePeriod, analysis, loading, error,
showManual), a first-render initialization effect reading browser
storage and the page query string, a handful of event handlers, and a
screen-selection rule.  We shallow-embed that controller: React state
becomes an `AppState` record, `localStorage` becomes a two-slot
`Storage` record (the code only ever touches the keys `access_token`
and `user_data`), the query string becomes a `QueryParams` record, and
each async handler becomes a pure function from the pre-state and the
outcome of its network call to the post-state.  The serialized profile
in the `user_data` slot is modelled as the profile value itself
(JSON round-trip is the identity on well-formed data).
-/

/-- Profile object stored by the app: the OAuth callback builds it as
`\x7b email, name, id \x7d` where `name` may be null (the `name` query
parameter can be absent), hence `Option String`. -/
structure UserData where
  email : String
  name : Option String
  id : String
deriving DecidableEq, Repr

/-- The `meeting_stats` object of a backend analysis response; the
front-end only displays these fields. -/
structure MeetingStats where
  total_meetings : Int
  total_hours : Int
  avg_meeting_length : Int
  longest_meeting_free_block : Int
deriving DecidableEq, Repr

/-- A backend analysis response (`response.data`); produced entirely by
the backend, only rendered by the front-end. -/
structure AnalysisResult where
  independence_percentage : Int
  witty_message : String
  meeting_stats : MeetingStats
  recommendations : List String
  detailed_analysis : String
deriving DecidableEq, Repr

/-- The seven React `useState` fields of `App`. -/
structure AppState where
  user : Option UserData
  calendarData : String
  timePeriod : String
  analysis : Option AnalysisResult
  loading : Bool
  error : String
  showManual : Bool
deriving DecidableEq, Repr

/-- The two `localStorage` slots the code reads and writes
(`access_token` and `user_data`); `none` models an absent key. -/
structure Storage where
  access_token : Option String
  user_data : Option UserData
deriving DecidableEq, Repr

/-- The query-string parameters inspected by the first-render effect
(`URLSearchParams.get` returns null for an absent parameter). -/
structure QueryParams where
  auth : Option String
  token : Option String
  user : Option String
  name : Option String
deriving DecidableEq, Repr

/-- Outcome of an analysis network call: axios resolves with data, or
rejects with an error whose optional response carries an optional
status and an optional `data.detail` string. -/
inductive NetResult where
  | success (data : AnalysisResult)
  | failure (status : Option Nat) (detail : Option String)
deriving DecidableEq, Repr

/-- The three top-level screens `App` can return. -/
inductive Screen where
  | manualEntry
  | login
  | dashboard
deriving DecidableEq, Repr

/-- JavaScript `String.prototype.trim`: drop leading and trailing
whitespace characters. -/
def jsTrim (s : String) : String :=
  ⟨((s.data.dropWhile Char.isWhitespace).reverse.dropWhile Char.isWhitespace).reverse⟩

/-- JavaScript truthiness of a nullable string: null and the empty
string are falsy. -/
def jsTruthy : Option String → Bool
  | none => false
  | some s => s ≠ ""

/-- JavaScript `a || b` on a nullable string with a string fallback, as
in `err.response?.data?.detail || "..."`. -/
def jsOr (a : Option String) (b : String) : String :=
  match a with
  | none => b
  | some s => if s = "" then b else s

/-- The `useState` initial values of `App`. -/
def initialState : AppState :=
  { user := none
    calendarData := ""
    timePeriod := "this_week"
    analysis := none
    loading := false
    error := ""
    showManual := false }

/-- Error message set by manual analyze on empty input. -/
def manualValidationMsg : String := "Please paste your schedule data first!"

/-- Error message set by automatic analyze on a 401 response. -/
def authRequiredMsg : String :=
  "Calendar access required. Please authorize Google Calendar access first."

/-- Generic fallback of automatic analyze. -/
def autoFallbackMsg : String := "Failed to analyze calendar. Please try again."

/-- Generic fallback of manual analyze. -/
def manualFallbackMsg : String := "Failed to analyze your freedom. Please try again."

/-- Error message set when the OAuth callback carries `auth=error`. -/
def oauthErrorMsg : String := "Google Calendar authorization failed. Please try again."

/-- The profile object the OAuth success callback builds from the URL
fields (`email: userEmail, name: userName, id: userEmail`). -/
def callbackUser (q : QueryParams) : UserData :=
  { email := q.user.getD "", name := q.name, id := q.user.getD "" }

/-- The first-render `useEffect`: restore the session when both storage
slots are present (JS truthiness on the raw values), then handle an
OAuth callback in the query string.  `auth=success` with truthy `token`
and `user` writes both storage slots and sets the session from the URL
fields; `auth=error` sets the error message.  Returns the state and the
storage after the effect (the `history.replaceState` URL cleanup has no
state effect and is not modelled). -/
def initApp (st : Storage) (q : QueryParams) : AppState × Storage :=
  let s1 :=
    if jsTruthy st.access_token ∧ st.user_data.isSome then
      { initialState with user := st.user_data }
    else initialState
  if q.auth = some "success" ∧ jsTruthy q.token ∧ jsTruthy q.user then
    ({ s1 with user := some (callbackUser q) },
     { access_token := q.token, user_data := some (callbackUser q) })
  else if q.auth = some "error" then
    ({ s1 with error := oauthErrorMsg }, st)
  else (s1, st)

/-- `analyzeCalendarAuto`, collapsed over the await: given the pre-state
and the outcome of the POST to `/api/analyze-calendar-auto`, the
post-state after the `finally` ran.  `setLoading(true)` and
`setError("")` happen before the call; success stores the response,
a 401 failure sets the specific authorization message, any other
failure sets the backend detail or the generic fallback; `finally`
clears loading. -/
def analyzeCalendarAuto (s : AppState) (r : NetResult) : AppState :=
  let s1 := { s with loading := true, error := "" }
  match r with
  | .success data => { s1 with analysis := some data, loading := false }
  | .failure status detail =>
    if status = some 401 then
      { s1 with error := authRequiredMsg, loading := false }
    else
      { s1 with error := jsOr detail autoFallbackMsg, loading := false }

/-- `analyzeCalendarManual`, collapsed over the await: on
whitespace-only text it sets the validation message and returns before
any request; otherwise it runs the same request cycle as the automatic
path but with the manual fallback and no 401 branch.  The second
component records whether a network request was issued. -/
def analyzeCalendarManual (s : AppState) (r : NetResult) : AppState × Bool :=
  if jsTrim s.calendarData = "" then
    ({ s with error := manualValidationMsg }, false)
  else
    let s1 := { s with loading := true, error := "" }
    match r with
    | .success data => ({ s1 with analysis := some data, loading := false }, true)
    | .failure _ detail =>
      ({ s1 with error := jsOr detail manualFallbackMsg, loading := false }, true)

/-- `logout`: remove both storage keys, clear user, analysis, text and
error, and leave manual mode. -/
def logout (s : AppState) (_st : Storage) : AppState × Storage :=
  ({ s with user := none, analysis := none, calendarData := "",
            error := "", showManual := false },
   { access_token := none, user_data := none })

/-- `resetAnalysis`: clear analysis, text and error. -/
def resetAnalysis (s : AppState) : AppState :=
  { s with analysis := none, calendarData := "", error := "" }

/-- The time-period select handler (`onChange` sets state from the
chosen option's `value`). -/
def setTimePeriod (s : AppState) (v : String) : AppState :=
  { s with timePeriod := v }

/-- Option values of the time-period select on the manual-entry screen
(App.js lines 233-236). -/
def manualScreenPeriodOptions : List String :=
  ["today", "this week", "this month", "recent days"]

/-- Option values of the time-period select on the authenticated
dashboard (App.js lines 511-514). -/
def dashboardPeriodOptions : List String :=
  ["today", "this_week", "this_month", "recent_days"]

/-- The documented closed enumeration of time periods. -/
def documentedPeriods : List String :=
  ["today", "this_week", "this_month", "recent_days"]

/-- The `time_period` field of the body POSTed by manual analyze is the
current `timePeriod` state. -/
def manualRequestTimePeriod (s : AppState) : String := s.timePeriod

/-- The `time_period` query parameter of the automatic analyze request
is the current `timePeriod` state. -/
def autoRequestTimePeriod (s : AppState) : String := s.timePeriod

/-- The screen-selection rule: the three early returns of `App`
(lines 187, 367, 448): manual mode wins, then absent session routes to
login, else the dashboard. -/
def renderScreen (s : AppState) : Screen :=
  if s.showManual then .manualEntry
  else if s.user = none then .login
  else .dashboard

/-- Storage with both keys absent (the first-visit browser state). -/
def emptyStorage : Storage := { access_token := none, user_data := none }

/-- A query string with none of the inspected parameters. -/
def emptyQuery : QueryParams :=
  { auth := none, token := none, user := none, name := none }

/-- A query string carrying only `auth=error`. -/
def errQuery : QueryParams :=
  { auth := some "error", token := none, user := none, name := none }

/-- A sample stored profile used to instantiate general theorems. -/
def sampleUser : UserData :=
  { email := "a@x.com", name := some "A", id := "a@x.com" }

/-- A sample backend analysis response used to instantiate general
theorems. -/
def sampleResult : AnalysisResult :=
  { independence_percentage := 42
    witty_message := "w"
    meeting_stats :=
      { total_meetings := 3
        total_hours := 5
        avg_meeting_length := 1
        longest_meeting_free_block := 2 }
    recommendations := ["r"]
    detailed_analysis := "d" }

/-- Storage holding both a token and a profile. -/
def fullStorage : Storage :=
  { access_token := some "t1", user_data := some sampleUser }

/-- Helper: the JS fallback chain yields a non-empty string whenever
the hardcoded fallback is non-empty. -/
theorem jsOr_ne_empty (a : Option String) (b : String) (hb : b ≠ "") :
    jsOr a b ≠ "" := by
  cases a with
  | none => simpa [jsOr] using hb
  | some s =>
    by_cases hs : s = "" <;> simp [jsOr, hs, hb]

/-- Helper: the session field after the first-render effect, by cases
on the OAuth callback and the storage contents. -/
theorem initApp_user (st : Storage) (q : QueryParams) :
    (initApp st q).1.user =
      (if q.auth = some "success" ∧ jsTruthy q.token ∧ jsTruthy q.user then
        some (callbackUser q)
      else if jsTruthy st.access_token ∧ st.user_data.isSome then st.user_data
      else none) := by
  by_cases h1 : q.auth = some "success" ∧ jsTruthy q.token ∧ jsTruthy q.user <;>
    by_cases h2 : jsTruthy st.access_token ∧ st.user_data.isSome <;>
      by_cases h3 : q.auth = some "error" <;>
        simp [initApp, h1, h2, h3, initialState]

/-- Helper: the storage after the first-render effect is written only
by the success callback; otherwise it is untouched. -/
theorem initApp_storage (st : Storage) (q : QueryParams)
    (h : ¬(q.auth = some "success" ∧ jsTruthy q.token ∧ jsTruthy q.user)) :
    (initApp st q).2 = st := by
  by_cases h3 : q.auth = some "error" <;> simp [initApp, h, h3]

/-- Helper: the error field after the first-render effect. -/
theorem initApp_error (st : Storage) (q : QueryParams) :
    (initApp st q).1.error =
      (if q.auth = some "success" ∧ jsTruthy q.token ∧ jsTruthy q.user then ""
      else if q.auth = some "error" then oauthErrorMsg
      else "") := by
  by_cases h1 : q.auth = some "success" ∧ jsTruthy q.token ∧ jsTruthy q.user <;>
    by_cases h2 : jsTruthy st.access_token ∧ st.user_data.isSome <;>
      by_cases h3 : q.auth = some "error" <;>
        simp [initApp, h1, h2, h3, initialState]

/-- Helper: the first-render effect never sets manual mode. -/
theorem initApp_showManual (st : Storage) (q : QueryParams) :
    (initApp st q).1.showManual = false := by
  by_cases h1 : q.auth = some "success" ∧ jsTruthy q.token ∧ jsTruthy q.user <;>
    by_cases h2 : jsTruthy st.access_token ∧ st.user_data.isSome <;>
      by_cases h3 : q.auth = some "error" <;>
        simp [initApp, h1, h2, h3, initialState]

/-- Claim C1: when the pasted calendar text is empty or
whitespace-only, manual analyze performs no network call, sets the
validation error message, and leaves loading, analysis result and
session unchanged; when the trimmed text is non-empty it issues the
analysis request. -/
theorem manual_analyze_empty_guard (s : AppState) (r : NetResult) :
    (jsTrim s.calendarData = "" →
      (analyzeCalendarManual s r).2 = false ∧
      (analyzeCalendarManual s r).1.error = manualValidationMsg ∧
      (analyzeCalendarManual s r).1.loading = s.loading ∧
      (analyzeCalendarManual s r).1.analysis = s.analysis ∧
      (analyzeCalendarManual s r).1.user = s.user) ∧
    (jsTrim s.calendarData ≠ "" → (analyzeCalendarManual s r).2 = true) := by
  constructor
  · intro h
    simp [analyzeCalendarManual, h]
  · intro h
    cases r <;> simp [analyzeCalendarManual, h]

/-- Witness for C1 at the initial state (whitespace-only text) and at a
state with concrete pasted text. -/
theorem manual_analyze_empty_guard_witness :
    ((analyzeCalendarManual { initialState with calendarData := " \n " }
        (.failure none none)).2 = false ∧
      (analyzeCalendarManual { initialState with calendarData := " \n " }
        (.failure none none)).1.error = manualValidationMsg) ∧
    (analyzeCalendarManual { initialState with calendarData := "9:00 AM Standup" }
        (.failure none none)).2 = true := by
  refine ⟨⟨?_, ?_⟩, ?_⟩
  · exact ((manual_analyze_empty_guard { initialState with calendarData := " \n " }
      (.failure none none)).1 (by decide)).1
  · exact ((manual_analyze_empty_guard { initialState with calendarData := " \n " }
      (.failure none none)).1 (by decide)).2.1
  · exact (manual_analyze_empty_guard { initialState with calendarData := "9:00 AM Standup" }
      (.failure none none)).2 (by decide)

/-- Claim C2: the rendered screen is a pure function of the manual-mode
flag and session presence; manual mode always shows the manual-entry
screen, otherwise a null session shows login and a present session the
dashboard, so exactly one of the three screens renders. -/
theorem screen_selection_rule (s t : AppState) :
    (s.showManual = true → renderScreen s = Screen.manualEntry) ∧
    (s.showManual = false → s.user = none → renderScreen s = Screen.login) ∧
    (s.showManual = false → s.user ≠ none → renderScreen s = Screen.dashboard) ∧
    (s.showManual = t.showManual → s.user.isSome = t.user.isSome →
      renderScreen s = renderScreen t) := by
  obtain ⟨u, c, tp, a, l, e, m⟩ := s
  obtain ⟨u', c', tp', a', l', e', m'⟩ := t
  cases m <;> cases m' <;> cases u <;> cases u' <;> simp [renderScreen]

/-- Witness for C2 at concrete states for each of the three screens. -/
theorem screen_selection_rule_witness :
    renderScreen { initialState with showManual := true } = Screen.manualEntry ∧
    renderScreen initialState = Screen.login ∧
    renderScreen { initialState with user := some sampleUser } = Screen.dashboard := by
  refine ⟨?_, ?_, ?_⟩
  · exact (screen_selection_rule { initialState with showManual := true }
      initialState).1 rfl
  · exact (screen_selection_rule initialState initialState).2.1 rfl rfl
  · exact (screen_selection_rule { initialState with user := some sampleUser }
      initialState).2.2.1 rfl (by decide)

/-- Claim C7: reset clears the analysis result, the pasted text and the
error message, and leaves session, manual-mode flag, time period and
loading unchanged. -/
theorem reset_clears_and_frames (s : AppState) :
    (resetAnalysis s).analysis = none ∧
    (resetAnalysis s).calendarData = "" ∧
    (resetAnalysis s).error = "" ∧
    (resetAnalysis s).user = s.user ∧
    (resetAnalysis s).showManual = s.showManual ∧
    (resetAnalysis s).timePeriod = s.timePeriod ∧
    (resetAnalysis s).loading = s.loading := by
  simp [resetAnalysis]

/-- Counterexample to C3 as stated: from a state whose selected time
period is "today", logout leaves the time period at "today" while the
first-load state has "this_week", so the post-logout state is not
fully equivalent to the first-load state. -/
theorem logout_not_first_load :
    (logout { initialState with user := some sampleUser, timePeriod := "today" }
        fullStorage).1.timePeriod = "today" ∧
    initialState.timePeriod = "this_week" ∧
    (logout { initialState with user := some sampleUser, timePeriod := "today" }
        fullStorage).1 ≠ initialState := by
  refine ⟨rfl, rfl, ?_⟩
  intro h
  have := congrArg AppState.timePeriod h
  exact absurd this (by decide)

/-- Claim C3 amended: logout clears the session and the manual-mode
flag, removes both persisted storage slots, and clears result, pasted
text and error, so the screen routes to login; but it leaves the
time-period selection and the loading flag unchanged, so the state
equals the first-load state exactly when those two fields already hold
their initial values. -/
theorem logout_clears_session (s : AppState) (st : Storage) :
    (logout s st).1.user = none ∧
    (logout s st).1.analysis = none ∧
    (logout s st).1.calendarData = "" ∧
    (logout s st).1.error = "" ∧
    (logout s st).1.showManual = false ∧
    (logout s st).2.access_token = none ∧
    (logout s st).2.user_data = none ∧
    (logout s st).1.timePeriod = s.timePeriod ∧
    (logout s st).1.loading = s.loading ∧
    renderScreen (logout s st).1 = Screen.login ∧
    ((logout s st).1 = initialState ↔
      (s.timePeriod = "this_week" ∧ s.loading = false)) := by
  obtain ⟨u, c, tp, a, l, e, m⟩ := s
  simp [logout, renderScreen, initialState, AppState.mk.injEq]

/-- Claim C4: after a manual or automatic analyze whose network call
completed (success or failure), from any state in which the analyze
controls are rendered (no result present, and for the manual path
non-empty trimmed text), loading is false and exactly one of
analysis-present and non-empty-error holds. -/
theorem analyze_exclusive_outcome (s : AppState) (r : NetResult)
    (h : s.analysis = none) :
    ((analyzeCalendarAuto s r).loading = false ∧
      ((analyzeCalendarAuto s r).analysis.isSome ↔
        (analyzeCalendarAuto s r).error = "")) ∧
    (jsTrim s.calendarData ≠ "" →
      ((analyzeCalendarManual s r).1.loading = false ∧
        ((analyzeCalendarManual s r).1.analysis.isSome ↔
          (analyzeCalendarManual s r).1.error = ""))) := by
  constructor
  · cases r with
    | success data => simp [analyzeCalendarAuto]
    | failure status detail =>
      by_cases h401 : status = some 401
      · simp [analyzeCalendarAuto, h401, h, authRequiredMsg]
      · simp [analyzeCalendarAuto, h401, h,
          jsOr_ne_empty detail autoFallbackMsg (by decide)]
  · intro hne
    cases r with
    | success data => simp [analyzeCalendarManual, hne]
    | failure status detail =>
      simp [analyzeCalendarManual, hne, h,
        jsOr_ne_empty detail manualFallbackMsg (by decide)]

/-- Witness for C4: a failed automatic analyze and a failed manual
analyze from the entry state with concrete text. -/
theorem analyze_exclusive_outcome_witness :
    ((analyzeCalendarAuto initialState (.failure (some 500) none)).loading = false ∧
      ((analyzeCalendarAuto initialState (.failure (some 500) none)).analysis.isSome ↔
        (analyzeCalendarAuto initialState (.failure (some 500) none)).error = "")) ∧
    ((analyzeCalendarManual { initialState with calendarData := "x" }
        (.failure (some 500) none)).1.loading = false ∧
      ((analyzeCalendarManual { initialState with calendarData := "x" }
          (.failure (some 500) none)).1.analysis.isSome ↔
        (analyzeCalendarManual { initialState with calendarData := "x" }
          (.failure (some 500) none)).1.error = "")) := by
  constructor
  · exact (analyze_exclusive_outcome initialState (.failure (some 500) none) rfl).1
  · exact (analyze_exclusive_outcome { initialState with calendarData := "x" }
      (.failure (some 500) none) rfl).2 (by decide)

/-- Counterexample to C5 as stated: when the backend detail of a failed
manual analyze is exactly the authorization-required string, manual
analyze displays that 401-specific message, so the message is not
never-produced by manual analyze. -/
theorem manual_can_show_auth_msg :
    (analyzeCalendarManual { initialState with calendarData := "x" }
        (.failure none (some authRequiredMsg))).1.error = authRequiredMsg := by
  decide

/-- Claim C5 amended: a failed automatic analyze shows the
authorization-required message exactly on status 401 and otherwise the
backend detail if truthy else the generic fallback; manual analyze has
no 401 branch and its own messages differ from the 401 message, so it
shows that message only when the backend supplies exactly that string
as the detail. -/
theorem auto_error_messages (s : AppState) (status : Option Nat)
    (detail : Option String) :
    (analyzeCalendarAuto s (.failure status detail)).error =
      (if status = some 401 then authRequiredMsg
       else jsOr detail autoFallbackMsg) ∧
    (jsTrim s.calendarData ≠ "" → detail ≠ some authRequiredMsg →
      (analyzeCalendarManual s (.failure status detail)).1.error ≠
        authRequiredMsg) := by
  constructor
  · by_cases h401 : status = some 401 <;> simp [analyzeCalendarAuto, h401]
  · intro hne hdet
    cases detail with
    | none =>
      simp [analyzeCalendarManual, hne, jsOr]
      decide
    | some d =>
      by_cases hd : d = ""
      · subst hd
        simp [analyzeCalendarManual, hne, jsOr]
        decide
      · simp [analyzeCalendarManual, hne, jsOr, hd]
        intro hcontra
        exact hdet (by rw [hcontra])

/-- Witness for C5 amended: a 401 automatic failure shows the specific
message, and a 500 manual failure with no detail does not. -/
theorem auto_error_messages_witness :
    (analyzeCalendarAuto initialState (.failure (some 401) none)).error =
      (if (some 401 : Option Nat) = some 401 then authRequiredMsg
       else jsOr none autoFallbackMsg) ∧
    (analyzeCalendarManual { initialState with calendarData := "x" }
        (.failure (some 500) none)).1.error ≠ authRequiredMsg := by
  constructor
  · exact (auto_error_messages initialState (some 401) none).1
  · exact (auto_error_messages { initialState with calendarData := "x" }
      (some 500) none).2 (by decide) (by decide)

/-- Counterexample to C6 as stated: the manual-entry screen of App.js
offers the option value "this week", which is sent verbatim as the
request time period but is not one of the documented spellings. -/
theorem period_spelling_mismatch :
    "this week" ∈ manualScreenPeriodOptions ∧
    manualRequestTimePeriod (setTimePeriod initialState "this week") =
      "this week" ∧
    "this week" ∉ documentedPeriods := by
  decide

/-- Claim C6 amended: the request time period (manual body field or
automatic query parameter) always equals the selected option value;
every dashboard selector value is a documented spelling, but of the
manual-screen selector values only "today" is documented — the other
three use spaces instead of underscores. -/
theorem period_option_spellings (v : String) (s : AppState) :
    manualRequestTimePeriod (setTimePeriod s v) = v ∧
    autoRequestTimePeriod (setTimePeriod s v) = v ∧
    (v ∈ dashboardPeriodOptions → v ∈ documentedPeriods) ∧
    (v ∈ manualScreenPeriodOptions → (v ∈ documentedPeriods ↔ v = "today")) := by
  refine ⟨rfl, rfl, ?_, ?_⟩
  · intro h
    simpa [dashboardPeriodOptions, documentedPeriods] using h
  · intro h
    simp only [manualScreenPeriodOptions, List.mem_cons,
      List.not_mem_nil, or_false] at h
    rcases h with h | h | h | h <;> subst h <;> decide

/-- Witness for C6 amended at the dashboard value this_week and the
manual-screen value this week. -/
theorem period_option_spellings_witness :
    manualRequestTimePeriod (setTimePeriod initialState "this_week") =
      "this_week" ∧
    "this_week" ∈ documentedPeriods ∧
    ("this week" ∈ documentedPeriods ↔ "this week" = "today") := by
  refine ⟨?_, ?_, ?_⟩
  · exact (period_option_spellings "this_week" initialState).1
  · exact (period_option_spellings "this_week" initialState).2.2.1 (by decide)
  · exact (period_option_spellings "this week" initialState).2.2.2 (by decide)

/-- Storage holding only the token slot. -/
def tokenOnlyStorage : Storage := { access_token := some "t1", user_data := none }

/-- Claim C8: an initial load whose query carries auth=error sets the
OAuth-callback error message, writes nothing to storage, and the
callback handling creates no session — the session is the same as on a
callback-free load, and with empty storage it is null. -/
theorem init_auth_error (st : Storage) (q : QueryParams)
    (h : q.auth = some "error") :
    (initApp st q).1.error = oauthErrorMsg ∧
    (initApp st q).2 = st ∧
    (initApp st q).1.user = (initApp st emptyQuery).1.user ∧
    (st = emptyStorage → (initApp st q).1.user = none) := by
  have hsucc : ¬(q.auth = some "success" ∧ jsTruthy q.token ∧ jsTruthy q.user) := by
    rintro ⟨hq, -⟩
    rw [h] at hq
    exact absurd hq (by decide)
  have hsucc0 : ¬(emptyQuery.auth = some "success" ∧
      jsTruthy emptyQuery.token ∧ jsTruthy emptyQuery.user) := by decide
  refine ⟨?_, ?_, ?_, ?_⟩
  · rw [initApp_error]
    simp [hsucc, h]
  · exact initApp_storage st q hsucc
  · rw [initApp_user, initApp_user]
    simp [hsucc, hsucc0]
  · intro hst
    subst hst
    rw [initApp_user, if_neg hsucc]
    simp [emptyStorage, jsTruthy]

/-- Witness for C8: an auth=error load with empty storage. -/
theorem init_auth_error_witness :
    (initApp emptyStorage errQuery).1.error = oauthErrorMsg ∧
    (initApp emptyStorage errQuery).2 = emptyStorage ∧
    (initApp emptyStorage errQuery).1.user = none := by
  refine ⟨?_, ?_, ?_⟩
  · exact (init_auth_error emptyStorage errQuery rfl).1
  · exact (init_auth_error emptyStorage errQuery rfl).2.1
  · exact (init_auth_error emptyStorage errQuery rfl).2.2.2 rfl

/-- Claim C9: when storage holds a truthy token and a profile, the
first-render effect yields a present session, so the screen-selection
rule routes to the dashboard rather than the login screen; on a load
without a success OAuth callback the session is exactly the stored
profile. -/
theorem init_restores_session (st : Storage) (q : QueryParams)
    (u : UserData) (tok : String) (ht : st.access_token = some tok)
    (htok : tok ≠ "") (hu : st.user_data = some u) :
    (initApp st q).1.user.isSome = true ∧
    renderScreen (initApp st q).1 = Screen.dashboard ∧
    (q.auth ≠ some "success" → (initApp st q).1.user = some u) := by
  have hcond : jsTruthy st.access_token ∧ st.user_data.isSome := by
    rw [ht, hu]
    simp [jsTruthy, htok]
  by_cases hs : q.auth = some "success" ∧ jsTruthy q.token ∧ jsTruthy q.user
  · have huser : (initApp st q).1.user = some (callbackUser q) := by
      rw [initApp_user]
      simp [hs]
    refine ⟨by simp [huser], ?_, ?_⟩
    · simp [renderScreen, initApp_showManual, huser]
    · intro hq
      exact absurd hs.1 hq
  · have huser : (initApp st q).1.user = some u := by
      rw [initApp_user]
      simp [hs, hcond, hu]
    refine ⟨by simp [huser], ?_, fun _ => huser⟩
    simp [renderScreen, initApp_showManual, huser]

/-- Witness for C9: a callback-free load with both slots populated. -/
theorem init_restores_session_witness :
    (initApp fullStorage emptyQuery).1.user.isSome = true ∧
    renderScreen (initApp fullStorage emptyQuery).1 = Screen.dashboard ∧
    (initApp fullStorage emptyQuery).1.user = some sampleUser := by
  refine ⟨?_, ?_, ?_⟩
  · exact (init_restores_session fullStorage emptyQuery sampleUser "t1"
      rfl (by decide) rfl).1
  · exact (init_restores_session fullStorage emptyQuery sampleUser "t1"
      rfl (by decide) rfl).2.1
  · exact (init_restores_session fullStorage emptyQuery sampleUser "t1"
      rfl (by decide) rfl).2.2 (by decide)

/-- Claim C10: on a load without a success OAuth callback, restoration
requires both storage slots: with exactly one of the token and profile
slots present, no session is restored and storage is left in place. -/
theorem init_single_slot (st : Storage) (q : QueryParams)
    (h : (st.access_token.isSome ∧ st.user_data = none) ∨
      (st.access_token = none ∧ st.user_data.isSome))
    (hq : q.auth ≠ some "success") :
    (initApp st q).1.user = none ∧ (initApp st q).2 = st := by
  have hsucc : ¬(q.auth = some "success" ∧ jsTruthy q.token ∧ jsTruthy q.user) := by
    rintro ⟨h1, -⟩
    exact hq h1
  constructor
  · rw [initApp_user, if_neg hsucc]
    rcases h with ⟨-, h2⟩ | ⟨h1, -⟩
    · simp [h2]
    · simp [h1, jsTruthy]
  · exact initApp_storage st q hsucc

/-- Witness for C10: a callback-free load with only the token slot. -/
theorem init_single_slot_witness :
    (initApp tokenOnlyStorage emptyQuery).1.user = none ∧
    (initApp tokenOnlyStorage emptyQuery).2 = tokenOnlyStorage :=
  init_single_slot tokenOnlyStorage emptyQuery (Or.inl ⟨by decide, rfl⟩) (by decide)
